import Mathlib

/-!
# Verification of the jira client's pagination and cookie-auth core

Shallow embedding of `jira/client.py`:

* `JIRA._fetch_pages` / `JIRA._get_items_from_page` — paginated fetching
  (`fetchPages`, `fetchLoop`, `getItemsFromPage` below);
* `ResultList.__init__` / `ResultList.__next__` — the returned container and
  its iterator protocol (`ResultList`, `rlNext`, `rlIterate` below);
* `JiraCookieAuth.handle_401` and its helpers — cookie re-authentication
  (`handle_401`, `updateCookies`, `prepareCookies` below).

JSON values are modelled by `JVal`; Python truthiness by `JVal.truthy`;
Python's int-context coercion (ints and bools) by `JVal.asInt`.  A server is a
pure function from (request index, request pagination params) to the parsed
JSON body, which matches the synchronous `_get_json` path: the `async` option
defaults to `False` in `JIRA.DEFAULT_OPTIONS`, so `async_class is None` and
the sequential while-loop is the live code path modelled here.

Known modelling boundaries, each outside every input used by the theorems:
* `str + str` / `list + list` concatenation in the `page_start` arithmetic is
  collapsed into a `typeError` (the model's `asInt` accepts only ints/bools,
  where Python's `+` and `<` on that line accept exactly those as well unless
  both operands are strings/lists);
* extra query parameters (`params`) are constant across all page requests and
  are not tracked in `PageParams`;
* the item factory `item_type(options, session, raw)` wraps each raw record
  one to one; items are modelled as the raw records themselves.
-/

namespace JiraClient

/-- Parsed JSON values, as returned by `_get_json`. -/
inductive JVal where
  | null
  | bool (b : Bool)
  | num (n : Int)
  | str (s : String)
  | arr (elems : List JVal)
  | obj (fields : List (String × JVal))
deriving Repr

/-- Python truthiness (`bool(x)`) for JSON values. -/
def JVal.truthy : JVal → Bool
  | .null => false
  | .bool b => b
  | .num n => n != 0
  | .str s => s != ""
  | .arr elems => !elems.isEmpty
  | .obj fields => !fields.isEmpty

/-- A JSON value usable in an int context.  Python `bool` is a subtype of
`int`, so `True`/`False` coerce to `1`/`0`; every other non-int value raises
`TypeError` in the arithmetic and comparisons modelled here. -/
def JVal.asInt : JVal → Option Int
  | .num n => some n
  | .bool b => some (if b then 1 else 0)
  | _ => none

/-- `dict.get(key)` on a JSON object's field list. -/
def jGet (fields : List (String × JVal)) (key : String) : Option JVal :=
  (fields.find? (fun p => p.1 == key)).map (fun p => p.2)

/-- `dict.get(key, default)`. -/
def jDefault (fields : List (String × JVal)) (key : String) (d : JVal) : JVal :=
  (jGet fields key).getD d

/-- Errors surfaced by the modelled code paths. -/
inductive FetchError where
  /-- `_get_items_from_page` re-raises `KeyError(str(e) + " : " + json.dumps(resource))`;
  the payload carries the missing key and the offending raw response body. -/
  | keyError (key : String) (body : JVal)
  /-- Python `TypeError` (non-subscriptable resource, non-numeric metadata in
  arithmetic or ordering). -/
  | typeError
  /-- The fuel bound was reached: the Python loop would still be running. -/
  | outOfFuel
deriving Repr

/-- Iterating a Python string yields its one-character strings. -/
def strChars (s : String) : List JVal :=
  s.toList.map (fun c => JVal.str (String.mk [c]))

/-- `JIRA._get_items_from_page` (client.py:717-731) with the item factory
modelled as the identity on raw records:

    return [item_type(options, session, raw)
            for raw in (resource[items_key] if items_key else resource)]
    except KeyError as e:
        raise KeyError(str(e) + " : " + json.dumps(resource))

Subscripting a non-dict with a string key, and iterating a non-iterable,
raise `TypeError`; iterating a dict yields its keys. -/
def getItemsFromPage (itemsKey : Option String) (resource : JVal) :
    Except FetchError (List JVal) :=
  match itemsKey with
  | some key =>
    match resource with
    | .obj fields =>
      match jGet fields key with
      | some (.arr xs) => .ok xs
      | some (.str s) => .ok (strChars s)
      | some (.obj fs) => .ok (fs.map (fun p => JVal.str p.1))
      | some _ => .error .typeError
      | none => .error (.keyError key resource)
    | _ => .error .typeError
  | none =>
    match resource with
    | .arr xs => .ok xs
    | .obj fields => .ok (fields.map (fun p => JVal.str p.1))
    | .str s => .ok (strChars s)
    | _ => .error .typeError

/-- The pagination query parameters of one page request (`page_params`); a
`none` field means the key is absent from the request. -/
structure PageParams where
  startAt : Option Int
  maxResults : Option Int
deriving Repr, DecidableEq

/-- The offset the server effectively uses: an absent `startAt` means the
server's default offset `0`. -/
def PageParams.effStartAt (p : PageParams) : Int :=
  p.startAt.getD 0

/-- The initial `page_params` (client.py:634-638): `startAt` / `maxResults`
are added only when truthy. -/
def initParams (startAt maxResults : Int) : PageParams :=
  { startAt := if startAt ≠ 0 then some startAt else none,
    maxResults := if maxResults ≠ 0 then some maxResults else none }

/-- The pagination metadata `_fetch_pages` extracts from a response
(client.py:646-657).  It is computed once, from the first response only. -/
structure PageMeta where
  total : Option JVal
  isLast : JVal
  startAt : JVal
  maxResults : JVal
deriving Repr

/-- Metadata extraction: the `isinstance(resource, dict)` branch reads the
optional keys with defaults; any non-dict resource (the "bare array"
degenerate case) yields `total=1, is_last=True, startAt=0, maxResults=1`. -/
def respMeta : JVal → PageMeta
  | .obj fields =>
    { total := jGet fields "total",
      isLast := jDefault fields "isLast" (.bool false),
      startAt := jDefault fields "startAt" (.num 0),
      maxResults := jDefault fields "maxResults" (.num 1) }
  | _ =>
    { total := some (.num 1), isLast := .bool true,
      startAt := .num 0, maxResults := .num 1 }

/-- The while-loop guard (client.py:687-692):

    not is_last and (total is None or page_start < total)
        and len(next_items_page) == page_size

`is_last` and `total` are the first page's values and never change.  The
`total` comparison raises `TypeError` for a non-numeric `total`; `==` between
an int and a non-int JSON value is `False`, never an error. -/
def loopCond (isLast : JVal) (total? : Option JVal) (pageStart : Int)
    (nextLen : Nat) (pageSize : Int) : Except FetchError Bool :=
  if isLast.truthy then .ok false
  else
    match total? with
    | none => .ok (decide ((nextLen : Int) = pageSize))
    | some tv =>
      match tv.asInt with
      | none => .error .typeError
      | some t => .ok (decide (pageStart < t) && decide ((nextLen : Int) = pageSize))

/-- The sequential fetch-all while-loop of `_fetch_pages`
(client.py:687-706).  State: `k` counts requests already issued, `items` is
the accumulator, `next` the most recent page's items, `pageStart` the next
offset, `reqs` the log of requests issued so far.  Each iteration sets
`page_params["startAt"] = page_start` and `page_params["maxResults"] =
page_size`, fetches, and on a falsy resource breaks; otherwise it extends
`items` and advances `page_start` by `page_size`.  `fuel` bounds the number
of iterations so the model is total. -/
def fetchLoop (server : Nat → PageParams → JVal) (itemsKey : Option String)
    (isLast : JVal) (total? : Option JVal) (pageSize : Int) :
    Nat → Nat → List JVal → List JVal → Int → List PageParams →
      Except FetchError (List JVal × List PageParams)
  | 0, _, items, next, pageStart, reqs =>
    match loopCond isLast total? pageStart next.length pageSize with
    | .error e => .error e
    | .ok false => .ok (items, reqs)
    | .ok true => .error .outOfFuel
  | fuel + 1, k, items, next, pageStart, reqs =>
    match loopCond isLast total? pageStart next.length pageSize with
    | .error e => .error e
    | .ok false => .ok (items, reqs)
    | .ok true =>
      let req : PageParams := { startAt := some pageStart, maxResults := some pageSize }
      let resource := server k req
      if resource.truthy then
        match getItemsFromPage itemsKey resource with
        | .error e => .error e
        | .ok next' =>
          fetchLoop server itemsKey isLast total? pageSize fuel (k + 1)
            (items ++ next') next' (pageStart + pageSize) (reqs ++ [req])
      else
        .ok (items, reqs ++ [req])

/-- The list subclass `ResultList` (client.py:129-164): the item list plus
the pagination metadata of the page(s) it came from, and the iteration
cursor `current`.  `total = none` models Python `None` (server sent no
`total`); the metadata fields keep whatever JSON values the server sent. -/
structure ResultList where
  iterable : List JVal
  startAt : JVal
  maxResults : JVal
  total : Option JVal
  isLast : JVal
  current : JVal
deriving Repr

/-- `ResultList.__init__`: stores the items and metadata and starts the
cursor at `startAt` (`self.current = self.startAt`). -/
def ResultList.make (iterable : List JVal) (startAt maxResults : JVal)
    (total : Option JVal) (isLast : JVal) : ResultList :=
  { iterable := iterable, startAt := startAt, maxResults := maxResults,
    total := total, isLast := isLast, current := startAt }

/-- The full outcome of a `_fetch_pages` call: the returned `ResultList`
plus the ordered log of page requests it issued. -/
structure FetchOutcome where
  result : ResultList
  requests : List PageParams
deriving Repr

/-- `JIRA._fetch_pages` (client.py:594-715), sequential path (`async` is
`False` by default, hence `async_class is None`).

    page_params = {...}; resource = self._get_json(request_path, page_params)
    next_items_page = self._get_items_from_page(...); items = next_items_page
    total / is_last / start_at_from_response / max_results_from_response
        are read from THIS first resource and never recomputed
    if not maxResults:
        page_size = max_results_from_response or len(items)
        page_start = (startAt or start_at_from_response or 0) + page_size
        while not is_last and (total is None or page_start < total)
              and len(next_items_page) == page_size: ...
    return ResultList(items, start_at_from_response,
                      max_results_from_response, total, is_last)
-/
def fetchPages (server : Nat → PageParams → JVal) (itemsKey : Option String)
    (startAt maxResults : Int) (fuel : Nat) : Except FetchError FetchOutcome :=
  let pp0 := initParams startAt maxResults
  let resource := server 0 pp0
  match getItemsFromPage itemsKey resource with
  | .error e => .error e
  | .ok items =>
    let meta := respMeta resource
    if maxResults ≠ 0 then
      .ok ⟨ResultList.make items meta.startAt meta.maxResults meta.total meta.isLast,
           [pp0]⟩
    else
      let pageSizeV := if meta.maxResults.truthy then meta.maxResults
                       else .num items.length
      match pageSizeV.asInt with
      | none => .error .typeError
      | some pageSize =>
        let startBase := if startAt ≠ 0 then JVal.num startAt
                         else if meta.startAt.truthy then meta.startAt
                         else .num 0
        match startBase.asInt with
        | none => .error .typeError
        | some sb =>
          match fetchLoop server itemsKey meta.isLast meta.total pageSize fuel 1
              items items (sb + pageSize) [pp0] with
          | .error e => .error e
          | .ok (allItems, reqs) =>
            .ok ⟨ResultList.make allItems meta.startAt meta.maxResults
                   meta.total meta.isLast,
                 reqs⟩

/-- `_fetch_pages` with the Python calling convention: `maxResults` has
declared default `50`, so an absent argument means `50`. -/
def fetchPagesOpt (server : Nat → PageParams → JVal) (itemsKey : Option String)
    (startAt : Int) (maxResults? : Option Int) (fuel : Nat) :
    Except FetchError FetchOutcome :=
  fetchPages server itemsKey startAt (maxResults?.getD 50) fuel

/-! ## The `ResultList` iterator protocol (`__next__`) -/

/-- What one `__next__` call produces besides the new state. -/
inductive IterResult where
  /-- an item was returned -/
  | item (x : JVal)
  /-- `raise StopIteration` -/
  | stopIteration
  /-- Python `TypeError` (`+= 1` on or `>`-comparison with a non-int) -/
  | typeError
  /-- `IndexError` from `self.iterable[...]` -/
  | indexError
deriving Repr

/-- Python list subscription `xs[i]`: a negative index counts from the end;
out of range raises `IndexError`. -/
def pyIndex (xs : List JVal) (i : Int) : IterResult :=
  let j : Int := if i < 0 then i + xs.length else i
  if j < 0 then .indexError
  else
    match xs.get? j.toNat with
    | some x => .item x
    | none => .indexError

/-- `ResultList.__next__` (client.py:155-163):

    self.current += 1
    if self.current > self.total:
        raise StopIteration
    else:
        return self.iterable[self.current - 1]

The increment persists even when `StopIteration` is raised.  A `total` of
Python `None` (`total = none` here) makes `int > None` raise `TypeError`. -/
def rlNext (s : ResultList) : ResultList × IterResult :=
  match s.current.asInt with
  | none => (s, .typeError)
  | some c =>
    let s' := { s with current := JVal.num (c + 1) }
    match s.total with
    | none => (s', .typeError)
    | some tv =>
      match tv.asInt with
      | none => (s', .typeError)
      | some t =>
        if c + 1 > t then (s', .stopIteration)
        else (s', pyIndex s.iterable (c + 1 - 1))

/-- The items obtained by calling `__next__` repeatedly (at most `fuel`
times), stopping at the first call that does not return an item. -/
def rlIterate (s : ResultList) : Nat → List JVal
  | 0 => []
  | fuel + 1 =>
    match rlNext s with
    | (s', .item x) => x :: rlIterate s' fuel
    | _ => []

/-! ## `JiraCookieAuth` (cookie-based re-authentication) -/

/-- An HTTP request as prepared by the session (`requests.PreparedRequest`):
method, URL, body and a header list (which may contain a `Cookie` entry). -/
structure HttpRequest where
  method : String
  url : String
  body : String
  headers : List (String × String)
deriving Repr, DecidableEq

/-- An HTTP response; `request` is the prepared request that produced it
(`response.request`). -/
structure HttpResponse where
  status : Nat
  body : String
  request : HttpRequest
deriving Repr, DecidableEq

/-- The observable state of the shared session the authenticator acts on:
its cookie jar, how many login calls (`self._get_session(auth)`) have been
performed, and the log of requests re-sent through `self._session.send`. -/
structure AuthSessionState where
  cookies : List (String × String)
  loginCalls : Nat
  sent : List HttpRequest
deriving Repr, DecidableEq

/-- `del original_request.headers["Cookie"]` — drop a header by name. -/
def removeHeader (name : String) (hs : List (String × String)) :
    List (String × String) :=
  hs.filter (fun p => p.1 != name)

/-- The `Cookie` header value derived from a cookie jar, as
`requests.PreparedRequest.prepare_cookies` builds it. -/
def cookieHeaderValue (jar : List (String × String)) : String :=
  String.intercalate "; " (jar.map (fun p => p.1 ++ "=" ++ p.2))

/-- `original_request.prepare_cookies(self.cookies)`: sets a `Cookie` header
derived from the jar (no header is added for an empty jar). -/
def prepareCookies (jar : List (String × String)) (req : HttpRequest) :
    HttpRequest :=
  if jar.isEmpty then req
  else { req with headers := req.headers ++ [("Cookie", cookieHeaderValue jar)] }

/-- `JiraCookieAuth.update_cookies` (client.py:216-221): the stale `Cookie`
header is deleted first so that `prepare_cookies` can rewrite it from the
session's jar. -/
def updateCookies (jar : List (String × String)) (req : HttpRequest) :
    HttpRequest :=
  prepareCookies jar { req with headers := removeHeader "Cookie" req.headers }

/-- `JiraCookieAuth.handle_401` (client.py:204-237):

    if response.status_code != 401:
        return response
    self.init_session()                      -- login: self._get_session(auth)
    response = self.process_original_request(response.request.copy())
    return response

`login` models the effect of the login call on the session's cookie jar;
`send` models `self._session.send` on the replayed request.  The state
records the jar, the number of login calls, and the requests sent. -/
def handle_401 (login : List (String × String) → List (String × String))
    (send : HttpRequest → HttpResponse)
    (st : AuthSessionState) (response : HttpResponse) :
    AuthSessionState × HttpResponse :=
  if response.status ≠ 401 then (st, response)
  else
    let st1 : AuthSessionState :=
      { st with cookies := login st.cookies, loginCalls := st.loginCalls + 1 }
    let original := response.request
    let prepared := updateCookies st1.cookies original
    let st2 := { st1 with sent := st1.sent ++ [prepared] }
    (st2, send prepared)

/-! ## Concrete inputs used in counterexamples and witnesses -/

/-- A full-size first page with `total = 4` and `isLast = false`. -/
def c1page0 : JVal := .obj [("issues", .arr [.num 1, .num 2]),
  ("maxResults", .num 2), ("startAt", .num 0), ("total", .num 4),
  ("isLast", .bool false)]

/-- The matching second page: `startAt = 2`, `isLast = true`. -/
def c1page1 : JVal := .obj [("issues", .arr [.num 3, .num 4]),
  ("maxResults", .num 2), ("startAt", .num 2), ("total", .num 4),
  ("isLast", .bool true)]

/-- A two-page server reporting `total = 4`. -/
def c1server : Nat → PageParams → JVal := fun k _ =>
  match k with
  | 0 => c1page0
  | 1 => c1page1
  | _ => .obj []

/-- First page: two items, no `total`, `isLast = false`. -/
def c2page0 : JVal := .obj [("issues", .arr [.num 1, .num 2]),
  ("maxResults", .num 2), ("startAt", .num 0), ("isLast", .bool false)]

/-- Second page: two items (full size), `isLast = true`, no `total`. -/
def c2page1 : JVal := .obj [("issues", .arr [.num 3, .num 4]),
  ("maxResults", .num 2), ("startAt", .num 2), ("isLast", .bool true)]

/-- A server marking `isLast` only on its second page; any further request
gets an empty object. -/
def c2server : Nat → PageParams → JVal := fun k _ =>
  match k with
  | 0 => c2page0
  | 1 => c2page1
  | _ => .obj []

/-- A server whose very first page carries `isLast = true`. -/
def c2wServer : Nat → PageParams → JVal := fun _ _ =>
  .obj [("issues", .arr [.num 9]), ("isLast", .bool true)]

/-- A first page of 2 items with `total = 100`: more data clearly exists. -/
def c3page0 : JVal := .obj [("issues", .arr [.num 1, .num 2]),
  ("maxResults", .num 50), ("startAt", .num 0), ("total", .num 100),
  ("isLast", .bool false)]

/-- A server with 100 items' worth of data. -/
def c3server : Nat → PageParams → JVal := fun k _ =>
  match k with
  | 0 => c3page0
  | _ => .obj []

/-- A server that always answers with the same two-item page and `total = 10`. -/
def c4server : Nat → PageParams → JVal := fun _ _ =>
  .obj [("issues", .arr [.num 5, .num 6]), ("total", .num 10)]

/-- A server whose next page is shorter (1 item) than the page size (2). -/
def c5server : Nat → PageParams → JVal := fun _ _ =>
  .obj [("issues", .arr [.num 7])]

/-- A login call that installs a fresh session cookie. -/
def c6login : List (String × String) → List (String × String) := fun _ =>
  [("JSESSIONID", "fresh")]

/-- A server that accepts the replayed request with a 200. -/
def c6send : HttpRequest → HttpResponse := fun r =>
  { status := 200, body := "ok", request := r }

/-- Session state holding a stale cookie, before any login. -/
def c6state : AuthSessionState :=
  { cookies := [("JSESSIONID", "stale")], loginCalls := 0, sent := [] }

/-- The original request, carrying the stale `Cookie` header. -/
def c6request : HttpRequest :=
  { method := "POST", url := "http://jira/rest/api/2/issue", body := "payload",
    headers := [("Content-Type", "application/json"),
                ("Cookie", "JSESSIONID=stale")] }

/-- The 401 response to the original request. -/
def c6response : HttpResponse :=
  { status := 401, body := "unauthorized", request := c6request }

/-- A successful response, which the hook must pass through untouched. -/
def c7response : HttpResponse :=
  { status := 200, body := "fine", request := c6request }

/-- A server answering with bodies that lack the items key `"issues"`. -/
def c8server : Nat → PageParams → JVal := fun k _ =>
  match k with
  | 0 => .obj [("errorMessages", .arr [.str "oops"])]
  | _ => .obj [("other", .num 1)]

/-- A server answering every request with a bare one-record array. -/
def c9server : Nat → PageParams → JVal := fun _ _ =>
  .arr [.obj [("name", .str "me")]]

/-- A three-item result list whose `total` metadata is only 2. -/
def c10list : ResultList :=
  ResultList.make [.num 10, .num 20, .num 30] (.num 0) (.num 0)
    (some (.num 2)) (.bool false)

end JiraClient

/-! ## Shared lemmas -/

namespace JiraClient

/-- If `is_last` (always the first page's value) is truthy, the fetch-all
loop guard is false at once: the loop body never runs. -/
theorem fetchLoop_isLast_stops
    (server : Nat → PageParams → JVal) (itemsKey : Option String)
    (isLast : JVal) (total? : Option JVal) (pageSize : Int)
    (fuel k : Nat) (items next : List JVal) (pageStart : Int)
    (reqs : List PageParams)
    (hLast : isLast.truthy = true) :
    fetchLoop server itemsKey isLast total? pageSize fuel k items next pageStart reqs
      = .ok (items, reqs) := by
  cases fuel <;> simp [fetchLoop, loopCond, hLast]

/-- A falsy resource can only ever produce an empty item list. -/
theorem truthy_false_items_eq_nil (itemsKey : Option String) (r : JVal)
    (xs : List JVal) (hfalsy : r.truthy = false)
    (h : getItemsFromPage itemsKey r = .ok xs) : xs = [] := by
  cases itemsKey with
  | none =>
    cases r with
    | null => simp [getItemsFromPage] at h
    | bool b => simp [getItemsFromPage] at h
    | num n => simp [getItemsFromPage] at h
    | str s =>
      have hs : s = "" := by simpa [JVal.truthy] using hfalsy
      subst hs
      have hn : strChars "" = [] := rfl
      rw [getItemsFromPage, hn] at h
      cases h
      rfl
    | arr elems =>
      have he : elems = [] := by simpa [JVal.truthy, List.isEmpty_iff] using hfalsy
      subst he
      cases h
      rfl
    | obj fields =>
      have he : fields = [] := by simpa [JVal.truthy, List.isEmpty_iff] using hfalsy
      subst he
      cases h
      rfl
  | some key =>
    cases r with
    | null => simp [getItemsFromPage] at h
    | bool b => simp [getItemsFromPage] at h
    | num n => simp [getItemsFromPage] at h
    | str s => simp [getItemsFromPage] at h
    | arr elems => simp [getItemsFromPage] at h
    | obj fields =>
      have he : fields = [] := by simpa [JVal.truthy, List.isEmpty_iff] using hfalsy
      subst he
      simp [getItemsFromPage, jGet] at h

/-- A true loop guard pins down the shape of its inputs: `is_last` is falsy
and `total`, when present, is numeric. -/
theorem loopCond_true_shape (isLast : JVal) (total? : Option JVal)
    (pageStart : Int) (len : Nat) (pageSize : Int)
    (h : loopCond isLast total? pageStart len pageSize = .ok true) :
    isLast.truthy = false ∧
      (total? = none ∨ ∃ tv t, total? = some tv ∧ tv.asInt = some t) := by
  by_cases hL : isLast.truthy
  · simp [loopCond, hL] at h
  · refine ⟨by simpa using hL, ?_⟩
    cases total? with
    | none => exact Or.inl rfl
    | some tv =>
      cases htv : tv.asInt with
      | none => simp [loopCond, eq_false_of_ne_true hL, htv] at h
      | some t => exact Or.inr ⟨tv, t, rfl, htv⟩

/-- As soon as the latest page's size differs from the page size, the guard
is false (given a falsy `is_last` and an absent-or-numeric `total`). -/
theorem loopCond_false_of_short (isLast : JVal) (total? : Option JVal)
    (pageStart : Int) (len : Nat) (pageSize : Int)
    (hLast : isLast.truthy = false)
    (htot : total? = none ∨ ∃ tv t, total? = some tv ∧ tv.asInt = some t)
    (hne : (len : Int) ≠ pageSize) :
    loopCond isLast total? pageStart len pageSize = .ok false := by
  rcases htot with rfl | ⟨tv, t, rfl, htv⟩
  · simp [loopCond, hLast, hne]
  · simp [loopCond, hLast, htv, hne]

/-- One `__next__` step, spelled out, when the cursor and `total` are
numeric. -/
theorem rlNext_reduce (s : ResultList) (c : Int) (tv : JVal) (t : Int)
    (hc : s.current.asInt = some c) (htot : s.total = some tv)
    (htv : tv.asInt = some t) :
    rlNext s = ({ s with current := JVal.num (c + 1) },
      if c + 1 > t then IterResult.stopIteration
      else pyIndex s.iterable (c + 1 - 1)) := by
  simp only [rlNext, hc, htot, htv]
  split <;> rfl

/-- List subscription never raises `StopIteration`. -/
theorem pyIndex_ne_stopIteration (xs : List JVal) (i : Int) :
    pyIndex xs i ≠ .stopIteration := by
  simp only [pyIndex]
  split <;> (try split) <;> (try split) <;> simp

/-- Each successful `__next__` moves the cursor up by one and needs the new
cursor to stay at most `total`, so at most `total - current` items can ever
be produced. -/
theorem rlIterate_length_le :
    ∀ (fuel : Nat) (s : ResultList) (c : Int) (tv : JVal) (t : Int),
      s.current.asInt = some c → s.total = some tv → tv.asInt = some t →
      (rlIterate s fuel).length ≤ (t - c).toNat := by
  intro fuel
  induction fuel with
  | zero =>
    intro s c tv t hc htot htv
    simp [rlIterate]
  | succ n ih =>
    intro s c tv t hc htot htv
    have hnext := rlNext_reduce s c tv t hc htot htv
    by_cases hgt : c + 1 > t
    · simp [rlIterate, hnext, hgt]
    · rw [if_neg hgt] at hnext
      cases hp : pyIndex s.iterable (c + 1 - 1) with
      | item x =>
        rw [hp] at hnext
        have hrec := ih { s with current := JVal.num (c + 1) } (c + 1) tv t
          (by simp [JVal.asInt]) htot htv
        simp only [rlIterate, hnext, List.length_cons]
        omega
      | stopIteration =>
        rw [hp] at hnext
        simp [rlIterate, hnext]
      | typeError =>
        rw [hp] at hnext
        simp [rlIterate, hnext]
      | indexError =>
        rw [hp] at hnext
        simp [rlIterate, hnext]

end JiraClient

/-! ## Claim theorems -/

namespace JiraClient

/-- Claim C1, amended: for every fetch-all call to `_fetch_pages` that
returns a `ResultList` (multi-page ones included), the `startAt`,
`maxResults`, `total` and `isLast` fields of the result reflect the FIRST
page fetched, not the last: they are extracted once from the first response
and never recomputed in the loop. -/
theorem c1_metadata_reflects_first_page
    (server : Nat → PageParams → JVal) (itemsKey : Option String)
    (startAt maxResults : Int) (fuel : Nat) (out : FetchOutcome)
    (h : fetchPages server itemsKey startAt maxResults fuel = .ok out) :
    out.result.startAt = (respMeta (server 0 (initParams startAt maxResults))).startAt ∧
    out.result.maxResults = (respMeta (server 0 (initParams startAt maxResults))).maxResults ∧
    out.result.total = (respMeta (server 0 (initParams startAt maxResults))).total ∧
    out.result.isLast = (respMeta (server 0 (initParams startAt maxResults))).isLast := by
  simp only [fetchPages] at h
  split at h
  · exact absurd h (by simp)
  · split at h
    · cases h
      exact ⟨rfl, rfl, rfl, rfl⟩
    · split at h
      · exact absurd h (by simp)
      · split at h
        · exact absurd h (by simp)
        · split at h
          · exact absurd h (by simp)
          · cases h
            exact ⟨rfl, rfl, rfl, rfl⟩

/-- Claim C1 as stated is false: a two-page fetch-all run against `c1server`
returns a `ResultList` whose `startAt = 0` and `isLast = false` are the
first page's metadata, while the last fetched page reported `startAt = 2`
and `isLast = true`. -/
theorem c1_counterexample :
    fetchPages c1server (some "issues") 0 0 10 =
      .ok ⟨ResultList.make [.num 1, .num 2, .num 3, .num 4]
             (.num 0) (.num 2) (some (.num 4)) (.bool false),
           [⟨none, none⟩, ⟨some 2, some 2⟩]⟩ ∧
    (respMeta (c1server 1 ⟨some 2, some 2⟩)).startAt = .num 2 ∧
    (respMeta (c1server 1 ⟨some 2, some 2⟩)).isLast = .bool true ∧
    JVal.num 0 ≠ JVal.num 2 ∧
    JVal.bool false ≠ JVal.bool true := by
  refine ⟨rfl, rfl, rfl, by simp, by simp⟩

/-- Witness for C1's amended theorem at the concrete two-page run. -/
theorem c1_witness :
    (FetchOutcome.mk
      (ResultList.make [.num 1, .num 2, .num 3, .num 4]
        (.num 0) (.num 2) (some (.num 4)) (.bool false))
      [⟨none, none⟩, ⟨some 2, some 2⟩]).result.startAt
        = (respMeta (c1server 0 (initParams 0 0))).startAt ∧
    (FetchOutcome.mk
      (ResultList.make [.num 1, .num 2, .num 3, .num 4]
        (.num 0) (.num 2) (some (.num 4)) (.bool false))
      [⟨none, none⟩, ⟨some 2, some 2⟩]).result.maxResults
        = (respMeta (c1server 0 (initParams 0 0))).maxResults ∧
    (FetchOutcome.mk
      (ResultList.make [.num 1, .num 2, .num 3, .num 4]
        (.num 0) (.num 2) (some (.num 4)) (.bool false))
      [⟨none, none⟩, ⟨some 2, some 2⟩]).result.total
        = (respMeta (c1server 0 (initParams 0 0))).total ∧
    (FetchOutcome.mk
      (ResultList.make [.num 1, .num 2, .num 3, .num 4]
        (.num 0) (.num 2) (some (.num 4)) (.bool false))
      [⟨none, none⟩, ⟨some 2, some 2⟩]).result.isLast
        = (respMeta (c1server 0 (initParams 0 0))).isLast :=
  c1_metadata_reflects_first_page c1server (some "issues") 0 0 10 _ rfl

/-- Claim C2 as stated is false: against `c2server`, whose second response
carries `isLast = true` and two items (a full page) and no `total`,
fetch-all issues a THIRD request after the `isLast` page — three requests in
total, not two. -/
theorem c2_counterexample :
    (respMeta (c2server 1 ⟨some 2, some 2⟩)).isLast = .bool true ∧
    fetchPages c2server (some "issues") 0 0 10 =
      .ok ⟨ResultList.make [.num 1, .num 2, .num 3, .num 4]
             (.num 0) (.num 2) none (.bool false),
           [⟨none, none⟩, ⟨some 2, some 2⟩, ⟨some 4, some 2⟩]⟩ ∧
    [(⟨none, none⟩ : PageParams), ⟨some 2, some 2⟩, ⟨some 4, some 2⟩].length = 3 :=
  ⟨rfl, rfl, rfl⟩

/-- Claim C2, amended: only the FIRST page's `isLast` flag is honoured.  In
fetch-all mode, when the first response is marked `isLast`, no further page
request is issued; an `isLast` on any later page is never consulted (the
loop keeps the first page's value), so it does not stop the loop by
itself. -/
theorem c2_first_page_isLast_only
    (server : Nat → PageParams → JVal) (itemsKey : Option String)
    (startAt : Int) (fuel : Nat) (out : FetchOutcome)
    (hLast : (respMeta (server 0 (initParams startAt 0))).isLast.truthy = true)
    (h : fetchPages server itemsKey startAt 0 fuel = .ok out) :
    out.requests = [initParams startAt 0] := by
  simp only [fetchPages] at h
  split at h
  · exact absurd h (by simp)
  · rw [if_neg (by simp)] at h
    split at h
    · exact absurd h (by simp)
    · split at h
      · exact absurd h (by simp)
      · rw [fetchLoop_isLast_stops _ _ _ _ _ _ _ _ _ _ _ hLast] at h
        cases h
        rfl

/-- Witness for C2's amended theorem: a first page marked `isLast = true`
stops after one request. -/
theorem c2_witness :
    (FetchOutcome.mk
      (ResultList.make [.num 9] (.num 0) (.num 1) none (.bool true))
      [⟨none, none⟩]).requests = [initParams 0 0] :=
  c2_first_page_isLast_only c2wServer (some "issues") 0 10 _ rfl rfl

/-- Claim C3 as stated is false: with `maxResults` absent, the Python
default `50` applies, so a single request carrying `maxResults = 50` is
issued and no follow-up batches are requested even though the first page
reports `total = 100` with only two items received. -/
theorem c3_counterexample :
    fetchPagesOpt c3server (some "issues") 0 none 10 =
      .ok ⟨ResultList.make [.num 1, .num 2]
             (.num 0) (.num 50) (some (.num 100)) (.bool false),
           [⟨none, some 50⟩]⟩ ∧
    jGet [("issues", .arr [.num 1, .num 2]),
      ("maxResults", .num 50), ("startAt", .num 0), ("total", .num 100),
      ("isLast", .bool false)] "total" = some (.num 100) ∧
    [(⟨none, some 50⟩ : PageParams)].length = 1 :=
  ⟨rfl, rfl, rfl⟩

/-- Claim C3, amended: an absent `maxResults` argument means the declared
default `50`, which is truthy, so the single-page policy applies (exactly
one request, with `maxResults = 50`); the fetch-all policy requires passing
an explicitly falsy `maxResults` such as `0`. -/
theorem c3_absent_maxResults_single_page
    (server : Nat → PageParams → JVal) (itemsKey : Option String)
    (startAt : Int) (fuel : Nat) (out : FetchOutcome)
    (h : fetchPagesOpt server itemsKey startAt none fuel = .ok out) :
    out.requests = [initParams startAt 50] ∧
    (initParams startAt 50).maxResults = some 50 := by
  simp only [fetchPagesOpt, Option.getD_none, fetchPages] at h
  split at h
  · exact absurd h (by simp)
  · rw [if_pos (by norm_num)] at h
    cases h
    exact ⟨rfl, by simp [initParams]⟩

/-- Witness for C3's amended theorem at the concrete `c3server` run. -/
theorem c3_witness :
    (FetchOutcome.mk
      (ResultList.make [.num 1, .num 2]
        (.num 0) (.num 50) (some (.num 100)) (.bool false))
      [⟨none, some 50⟩]).requests = [initParams 0 50] ∧
    (initParams 0 50).maxResults = some 50 :=
  c3_absent_maxResults_single_page c3server (some "issues") 0 10 _ rfl

/-- Claim C4: with `maxResults = N > 0`, `_fetch_pages` issues exactly one
request — whose effective offset is the given `startAt` and whose
`maxResults` parameter is exactly `N` — and returns a `ResultList` holding
exactly the items of that single response, regardless of any further data
on the server. -/
theorem c4_single_page_policy
    (server : Nat → PageParams → JVal) (itemsKey : Option String)
    (startAt N : Int) (fuel : Nat) (items : List JVal)
    (hN : 0 < N)
    (hItems : getItemsFromPage itemsKey (server 0 (initParams startAt N)) = .ok items) :
    fetchPages server itemsKey startAt N fuel =
      .ok ⟨ResultList.make items
             (respMeta (server 0 (initParams startAt N))).startAt
             (respMeta (server 0 (initParams startAt N))).maxResults
             (respMeta (server 0 (initParams startAt N))).total
             (respMeta (server 0 (initParams startAt N))).isLast,
           [initParams startAt N]⟩ ∧
    (initParams startAt N).effStartAt = startAt ∧
    (initParams startAt N).maxResults = some N := by
  refine ⟨?_, ?_, ?_⟩
  · simp only [fetchPages, hItems]
    rw [if_pos hN.ne']
  · by_cases h0 : startAt = 0
    · simp [initParams, PageParams.effStartAt, h0]
    · simp [initParams, PageParams.effStartAt, h0]
  · simp [initParams, hN.ne']

/-- Witness for C4 against `c4server` (which always has more data:
`total = 10`), at `startAt = 3`, `maxResults = 2`. -/
theorem c4_witness :
    fetchPages c4server (some "issues") 3 2 10 =
      .ok ⟨ResultList.make [.num 5, .num 6]
             (respMeta (c4server 0 (initParams 3 2))).startAt
             (respMeta (c4server 0 (initParams 3 2))).maxResults
             (respMeta (c4server 0 (initParams 3 2))).total
             (respMeta (c4server 0 (initParams 3 2))).isLast,
           [initParams 3 2]⟩ ∧
    (initParams 3 2).effStartAt = 3 ∧
    (initParams 3 2).maxResults = some 2 :=
  c4_single_page_policy c4server (some "issues") 3 2 10 [.num 5, .num 6]
    (by norm_num) rfl

/-- Claim C5: in sequential fetch-all mode, when the page just fetched is an
empty/falsy response, or yields fewer items than the page size, the loop
stops without error: the returned item list is exactly what was accumulated
up to and including that page, and the request just made is the last one
issued. -/
theorem c5_short_or_empty_page_stops
    (server : Nat → PageParams → JVal) (itemsKey : Option String)
    (isLast : JVal) (total? : Option JVal) (pageSize : Int)
    (fuel k : Nat) (items next next' : List JVal) (pageStart : Int)
    (reqs : List PageParams)
    (hcond : loopCond isLast total? pageStart next.length pageSize = .ok true)
    (hcase : ((server k ⟨some pageStart, some pageSize⟩).truthy = false ∧ next' = []) ∨
             (getItemsFromPage itemsKey (server k ⟨some pageStart, some pageSize⟩)
                 = .ok next' ∧
              (next'.length : Int) < pageSize)) :
    fetchLoop server itemsKey isLast total? pageSize (fuel + 1) k items next pageStart reqs
      = .ok (items ++ next', reqs ++ [⟨some pageStart, some pageSize⟩]) := by
  obtain ⟨hLast, htot⟩ :=
    loopCond_true_shape isLast total? pageStart next.length pageSize hcond
  rcases hcase with ⟨hfalsy, hnil⟩ | ⟨hok, hlt⟩
  · subst hnil
    simp [fetchLoop, hcond, hfalsy]
  · cases hT : (server k ⟨some pageStart, some pageSize⟩).truthy with
    | false =>
      have hnil := truthy_false_items_eq_nil itemsKey _ next' hT hok
      subst hnil
      simp [fetchLoop, hcond, hT]
    | true =>
      have hstop := loopCond_false_of_short isLast total?
        (pageStart + pageSize) next'.length pageSize hLast htot (ne_of_lt hlt)
      cases fuel <;> simp [fetchLoop, hcond, hT, hok, hstop]

/-- Witness for C5: after a full first page of size 2, `c5server` answers
with a single item, and the loop stops right after folding it in. -/
theorem c5_witness :
    fetchLoop c5server (some "issues") (.bool false) none 2 4 1
      [.num 1, .num 2] [.num 1, .num 2] 2 [⟨none, none⟩]
      = .ok ([JVal.num 1, .num 2] ++ [.num 7],
             [(⟨none, none⟩ : PageParams)] ++ [⟨some 2, some 2⟩]) :=
  c5_short_or_empty_page_stops c5server (some "issues") (.bool false) none 2 3 1
    [.num 1, .num 2] [.num 1, .num 2] [.num 7] 2 [⟨none, none⟩] rfl
    (Or.inr ⟨rfl, by norm_num⟩)

/-- Claim C6: on a 401 response the hook performs exactly one login call,
re-sends the original request exactly once through the same session — with
method, URL and body unchanged, the stale `Cookie` header removed and a
`Cookie` header re-derived from the now-updated session jar — and the
caller gets the replay's response, never the initial 401. -/
theorem c6_replay_after_401
    (login : List (String × String) → List (String × String))
    (send : HttpRequest → HttpResponse)
    (st : AuthSessionState) (response : HttpResponse)
    (h401 : response.status = 401) :
    handle_401 login send st response =
      ({ cookies := login st.cookies, loginCalls := st.loginCalls + 1,
         sent := st.sent ++ [updateCookies (login st.cookies) response.request] },
       send (updateCookies (login st.cookies) response.request)) ∧
    (updateCookies (login st.cookies) response.request).method
      = response.request.method ∧
    (updateCookies (login st.cookies) response.request).url
      = response.request.url ∧
    (updateCookies (login st.cookies) response.request).body
      = response.request.body ∧
    (updateCookies (login st.cookies) response.request).headers
      = removeHeader "Cookie" response.request.headers ++
          (if (login st.cookies).isEmpty then []
           else [("Cookie", cookieHeaderValue (login st.cookies))]) := by
  refine ⟨by simp [handle_401, h401], ?_, ?_, ?_, ?_⟩ <;>
    · simp only [updateCookies, prepareCookies]
      split <;> simp

/-- Witness for C6 at a concrete 401 with a stale cookie. -/
theorem c6_witness :
    handle_401 c6login c6send c6state c6response =
      ({ cookies := c6login c6state.cookies, loginCalls := c6state.loginCalls + 1,
         sent := c6state.sent ++
           [updateCookies (c6login c6state.cookies) c6response.request] },
       c6send (updateCookies (c6login c6state.cookies) c6response.request)) ∧
    (updateCookies (c6login c6state.cookies) c6response.request).method
      = c6response.request.method ∧
    (updateCookies (c6login c6state.cookies) c6response.request).url
      = c6response.request.url ∧
    (updateCookies (c6login c6state.cookies) c6response.request).body
      = c6response.request.body ∧
    (updateCookies (c6login c6state.cookies) c6response.request).headers
      = removeHeader "Cookie" c6response.request.headers ++
          (if (c6login c6state.cookies).isEmpty then []
           else [("Cookie", cookieHeaderValue (c6login c6state.cookies))]) :=
  c6_replay_after_401 c6login c6send c6state c6response rfl

/-- Claim C7: a response whose status is not 401 is returned unchanged, with
no login call and no change to the session state. -/
theorem c7_non_401_passthrough
    (login : List (String × String) → List (String × String))
    (send : HttpRequest → HttpResponse)
    (st : AuthSessionState) (response : HttpResponse)
    (h : response.status ≠ 401) :
    handle_401 login send st response = (st, response) := by
  simp [handle_401, h]

/-- Witness for C7 at a concrete 200 response. -/
theorem c7_witness :
    handle_401 c6login c6send c6state c7response = (c6state, c7response) :=
  c7_non_401_passthrough c6login c6send c6state c7response (by norm_num [c7response])

/-- Claim C8: when the configured items key is absent from a page response
object, `_fetch_pages` fails with an error whose payload carries the
offending raw response body, and no `ResultList` is returned — both for the
first page and for any page fetched inside the fetch-all loop. -/
theorem c8_missing_items_key
    (server : Nat → PageParams → JVal) (key : String)
    (startAt maxResults : Int) (fuel : Nat)
    (fields : List (String × JVal))
    (isLast : JVal) (total? : Option JVal) (pageSize : Int)
    (fuel' k : Nat) (items next : List JVal) (pageStart : Int)
    (reqs : List PageParams) (fields' : List (String × JVal))
    (hresp : server 0 (initParams startAt maxResults) = .obj fields)
    (hmiss : jGet fields key = none)
    (hcond : loopCond isLast total? pageStart next.length pageSize = .ok true)
    (hresp' : server k ⟨some pageStart, some pageSize⟩ = .obj fields')
    (hne : fields' ≠ [])
    (hmiss' : jGet fields' key = none) :
    fetchPages server (some key) startAt maxResults fuel
      = .error (.keyError key (.obj fields)) ∧
    fetchLoop server (some key) isLast total? pageSize (fuel' + 1) k
        items next pageStart reqs
      = .error (.keyError key (.obj fields')) := by
  constructor
  · simp [fetchPages, hresp, getItemsFromPage, hmiss]
  · have hT : (JVal.obj fields').truthy = true := by
      simp [JVal.truthy, List.isEmpty_iff, hne]
    simp [fetchLoop, hcond, hresp', hT, getItemsFromPage, hmiss']

/-- Witness for C8: bodies without the `"issues"` key make both the entry
request and an in-loop request fail with a `keyError` holding the body. -/
theorem c8_witness :
    fetchPages c8server "issues" 0 0 10
      = .error (.keyError "issues" (.obj [("errorMessages", .arr [.str "oops"])])) ∧
    fetchLoop c8server (some "issues") (.bool false) none 1 (3 + 1) 1
        [.num 0] [.num 0] 1 [⟨none, none⟩]
      = .error (.keyError "issues" (.obj [("other", .num 1)])) :=
  c8_missing_items_key c8server "issues" 0 0 10
    [("errorMessages", .arr [.str "oops"])]
    (.bool false) none 1 3 1 [.num 0] [.num 0] 1 [⟨none, none⟩]
    [("other", .num 1)]
    rfl rfl rfl rfl (by simp) rfl

/-- Claim C9: when the (first) page response is a bare JSON array holding
one record and the items key is the `None` sentinel (the documented
configuration for array-shaped endpoints), `_fetch_pages` returns a
single-item, single-page `ResultList` with `startAt = 0`, `maxResults = 1`,
`total = 1`, `isLast = true`, whatever `startAt`/`maxResults` were
requested. -/
theorem c9_bare_array
    (server : Nat → PageParams → JVal) (startAt maxResults : Int)
    (fuel : Nat) (x : JVal)
    (hresp : server 0 (initParams startAt maxResults) = .arr [x]) :
    fetchPages server none startAt maxResults fuel =
      .ok ⟨ResultList.make [x] (.num 0) (.num 1) (some (.num 1)) (.bool true),
           [initParams startAt maxResults]⟩ := by
  by_cases hm : maxResults = 0
  · subst hm
    by_cases hs : startAt = 0
    · subst hs
      simp [fetchPages, hresp, getItemsFromPage, respMeta, JVal.asInt]
      rw [fetchLoop_isLast_stops _ _ (JVal.bool true) _ _ _ _ _ _ _ _ rfl]
    · simp [fetchPages, hresp, getItemsFromPage, respMeta, hs, JVal.asInt]
      rw [fetchLoop_isLast_stops _ _ (JVal.bool true) _ _ _ _ _ _ _ _ rfl]
  · simp [fetchPages, hresp, getItemsFromPage, respMeta, hm]

/-- Witness for C9 at `startAt = 3` in fetch-all mode. -/
theorem c9_witness :
    fetchPages c9server none 3 0 5 =
      .ok ⟨ResultList.make [.obj [("name", .str "me")]]
             (.num 0) (.num 1) (some (.num 1)) (.bool true),
           [initParams 3 0]⟩ :=
  c9_bare_array c9server 3 0 5 (.obj [("name", .str "me")]) rfl

/-- Claim C10: a `ResultList`'s iteration cursor starts at `startAt`;
`__next__` raises `StopIteration` exactly when the incremented cursor
exceeds the numeric `total`; and hence (for a non-negative `startAt`) the
number of items obtainable through `__next__` is bounded by `total`,
independent of the length of the underlying list. -/
theorem c10_next_bounded_by_total
    (items : List JVal) (mxV isLastV : JVal)
    (s : ResultList) (c : Int) (tv : JVal) (tt : Int)
    (sa t : Int) (fuel : Nat)
    (hsa : 0 ≤ sa)
    (hc : s.current.asInt = some c) (htot : s.total = some tv)
    (htv : tv.asInt = some tt) :
    (ResultList.make items (.num sa) mxV (some (.num t)) isLastV).current = .num sa ∧
    ((rlNext s).2 = IterResult.stopIteration ↔ c + 1 > tt) ∧
    (rlIterate (ResultList.make items (.num sa) mxV (some (.num t)) isLastV)
        fuel).length ≤ t.toNat := by
  refine ⟨rfl, ?_, ?_⟩
  · have hnext := rlNext_reduce s c tv tt hc htot htv
    by_cases hgt : c + 1 > tt
    · simp [hnext, hgt]
    · rw [if_neg hgt] at hnext
      simp [hnext, hgt, pyIndex_ne_stopIteration]
  · have hb := rlIterate_length_le fuel
      (ResultList.make items (.num sa) mxV (some (.num t)) isLastV)
      sa (.num t) t rfl rfl rfl
    omega

/-- Witness for C10: a three-item list with `total = 2` yields at most two
items when iterated. -/
theorem c10_witness :
    (ResultList.make [JVal.num 10, .num 20, .num 30] (.num 0) (.num 0)
        (some (.num 2)) (.bool false)).current = .num 0 ∧
    ((rlNext c10list).2 = IterResult.stopIteration ↔ (0 : Int) + 1 > 2) ∧
    (rlIterate (ResultList.make [JVal.num 10, .num 20, .num 30] (.num 0) (.num 0)
        (some (.num 2)) (.bool false)) 5).length ≤ (2 : Int).toNat :=
  c10_next_bounded_by_total [.num 10, .num 20, .num 30] (.num 0) (.bool false)
    c10list 0 (.num 2) 2 0 2 5 (by norm_num) rfl rfl rfl

end JiraClient
